import Mathlib

/-!
Verification of the product-landscape report generator
(scripts/generate_confluence_page.py).

The script takes a flat list of product records (name, function group,
product type, family line), aggregates them (per-dimension counts,
present-category lists, a family-line x product-type cross-tab), and renders
an HTML body plus a CSS stylesheet, packaged either as a standalone document,
as split fragments, or as a Confluence storage payload.  This file is a
shallow embedding of that script: each Python function is translated into a
Lean definition of the same name, and the claims about the script are proved
as theorems over those definitions.

Modelling conventions:
  - Python strings are Lean Strings; f-string interpolation becomes
    explicit concatenation; integer formatting is toString on Nat.
  - Python's float percentage (count / max_count * 100) is modelled in the
    rationals; the one-decimal formatting uses round-half-even at one
    decimal, which agrees with Python's float formatting on every value the
    theorems below evaluate (all of them exact in binary floating point).
  - Counter becomes a total count function (Counter lookups default to 0,
    exactly like the script's uses); the Counter's key set is modelled with
    List.dedup over the mapped field values (same key set; no claim below
    depends on Counter key iteration order).
  - OrderedDict.fromkeys in the script deduplicates a comprehension that
    iterates a duplicate-free registry list, so it is the identity there and
    is modelled as a plain filter over the registry.
-/

/-- One product record: the four text fields loaded from a CSV row. -/
structure Product where
  name : String
  function_group : String
  product_type : String
  family_line : String
deriving DecidableEq

/-- Registry of known function groups, in authoritative display order. -/
def FUNCTION_GROUPS : List String :=
  ["Marketing", "Sales", "Engineering", "Customer Success",
   "Finance", "HR & People", "Operations", "Data & Analytics",
   "Security", "IT Infrastructure", "Legal & Compliance", "Product"]

/-- Registry of product types: the fixed matrix column list. -/
def PRODUCT_TYPES : List String := ["Platform", "Tool", "Service", "Integration"]

/-- Registry of known family lines, in authoritative display order. -/
def FAMILY_LINES : List String :=
  ["Enterprise Suite", "Growth Cloud", "Analytics Hub", "Commerce Engine",
   "Workflow Studio", "Connect Platform", "Identity Shield", "DevOps Pipeline",
   "Insights Lab", "Talent Cloud", "Revenue Ops", "Compliance Center"]

/-- Display style of a function group (background, text, border, dot colors). -/
structure FColor where
  bg : String
  text : String
  border : String
  dot : String
deriving DecidableEq

/-- Function-group color table (FUNCTION_COLORS in the script). -/
def FUNCTION_COLORS : List (String × FColor) :=
  [("Marketing",          ⟨"#DBEAFE", "#1E40AF", "#93C5FD", "#3B82F6"⟩),
   ("Sales",              ⟨"#D1FAE5", "#065F46", "#6EE7B7", "#10B981"⟩),
   ("Engineering",        ⟨"#E0E7FF", "#3730A3", "#A5B4FC", "#6366F1"⟩),
   ("Customer Success",   ⟨"#FEF3C7", "#92400E", "#FCD34D", "#F59E0B"⟩),
   ("Finance",            ⟨"#FEE2E2", "#991B1B", "#FCA5A5", "#EF4444"⟩),
   ("HR & People",        ⟨"#FCE7F3", "#9D174D", "#F9A8D4", "#EC4899"⟩),
   ("Operations",         ⟨"#EDE9FE", "#5B21B6", "#C4B5FD", "#8B5CF6"⟩),
   ("Data & Analytics",   ⟨"#CFFAFE", "#155E75", "#67E8F9", "#06B6D4"⟩),
   ("Security",           ⟨"#FFEDD5", "#9A3412", "#FDBA74", "#F97316"⟩),
   ("IT Infrastructure",  ⟨"#F1F5F9", "#334155", "#CBD5E1", "#64748B"⟩),
   ("Legal & Compliance", ⟨"#ECFCCB", "#3F6212", "#BEF264", "#84CC16"⟩),
   ("Product",            ⟨"#CCFBF1", "#115E59", "#5EEAD4", "#14B8A6"⟩)]

/-- Product-type marker glyphs (HTML entity, literal glyph) — TYPE_SHAPES. -/
def TYPE_SHAPES : List (String × String × String) :=
  [("Platform",    ("&#9632;", "▪")),
   ("Tool",        ("&#9670;", "◆")),
   ("Service",     ("&#9679;", "●")),
   ("Integration", ("&#10753;", "⊕"))]

/-- Filter products by family line and product type (get_products). -/
def get_products (products : List Product) (family_line product_type : String) : List Product :=
  products.filter (fun p => p.family_line == family_line && p.product_type == product_type)

/-- Character-level worker for slug.  The script computes
s.lower().replace(" & ", "-").replace(" ", "-").replace("/", "-"); lowering
never creates or destroys the pattern characters, and the three sequential
left-to-right replacements are equivalent to this single prioritized pass. -/
def slugAux : List Char → List Char
  | [] => []
  | ' ' :: '&' :: ' ' :: rest => '-' :: slugAux rest
  | ' ' :: rest => '-' :: slugAux rest
  | '/' :: rest => '-' :: slugAux rest
  | c :: rest => c.toLower :: slugAux rest

/-- Convert a string to a CSS class-safe slug (slug). -/
def slug (s : String) : String := String.mk (slugAux s.data)

/-- Per-character html.escape replacement table (quote=True: also escapes
the double quote and the single quote). -/
def escChar (c : Char) : String :=
  if c = '&' then "&amp;"
  else if c = '<' then "&lt;"
  else if c = '>' then "&gt;"
  else if c = '"' then "&quot;"
  else if c = '\'' then "&#x27;"
  else String.singleton c

/-- html.escape as used by the renderer (esc).  The script's sequential
str.replace calls are equivalent to this per-character map because no
replacement output contains a character replaced by a later step. -/
def esc (s : String) : String := String.join (s.data.map escChar)

/-- Per-dimension count of records whose field equals the category — the
Counter lookups fg_counts[c] / type_counts.get(c, 0) etc. (0 when absent). -/
def dimCount (f : Product → String) (l : List Product) (c : String) : Nat :=
  l.countP (fun p => f p == c)

/-- Counter over function groups (fg_counts). -/
def fg_counts (l : List Product) (c : String) : Nat :=
  dimCount (fun p => p.function_group) l c

/-- Counter over product types (type_counts). -/
def type_counts (l : List Product) (c : String) : Nat :=
  dimCount (fun p => p.product_type) l c

/-- Counter over family lines (fl_counts). -/
def fl_counts (l : List Product) (c : String) : Nat :=
  dimCount (fun p => p.family_line) l c

/-- Key set of the Counter for field f: the distinct field values in data. -/
def counterKeys (f : Product → String) (l : List Product) : List String :=
  (l.map f).dedup

/-- Value multiset of the Counter for field f (one count per distinct key). -/
def counterValues (f : Product → String) (l : List Product) : List Nat :=
  (counterKeys f l).map (fun c => dimCount f l c)

/-- Python max over a nonempty list, with the script's `if counter else 1`
guard folded in: an empty Counter yields 1. -/
def pyMax1 : List Nat → Nat
  | [] => 1
  | v :: vs => vs.foldr max v

/-- Guard-and-divide of dist_bar: (count / max_count * 100) if max_count > 0
else 0, over the rationals. -/
def pctOf (count maxCount : Nat) : ℚ :=
  if 0 < maxCount then (count : ℚ) / (maxCount : ℚ) * 100 else 0

/-- Round a rational to an integer, ties to even — the rounding Python's
percent values undergo at one decimal digit. -/
def roundHalfEven (t : ℚ) : ℤ :=
  let f : ℤ := ⌊t⌋
  let r : ℚ := t - (f : ℚ)
  if r < 1/2 then f
  else if 1/2 < r then f + 1
  else if f % 2 = 0 then f else f + 1

/-- The percentage of dist_bar in tenths of a percent: the guarded
count / max_count * 100 of pctOf, rounded half-to-even at one decimal digit
(pctTenths_eq below proves this integer computation equal to rounding the
rational pctOf).  This agrees with Python's float computation plus .1f
formatting on every value a theorem below evaluates (all exact in binary
floating point). -/
def pctTenths (count maxCount : Nat) : Nat :=
  if 0 < maxCount then
    let n := count * 1000
    let q := n / maxCount
    let r := n % maxCount
    if 2 * r < maxCount then q
    else if maxCount < 2 * r then q + 1
    else if q % 2 = 0 then q else q + 1
  else 0

/-- Decimal rendering of a tenths-of-percent value, as {pct:.1f} renders the
nonnegative percentages the script produces. -/
def fmtTenths (t : Nat) : String :=
  toString (t / 10) ++ "." ++ toString (t % 10)

/-- Family lines actually present in the data, in registry order
(family_lines_in_data). -/
def family_lines_in_data (l : List Product) : List String :=
  FAMILY_LINES.filter (fun fl => l.any (fun p => p.family_line == fl))

/-- Function groups actually present in the data, in registry order
(function_groups_in_data). -/
def function_groups_in_data (l : List Product) : List String :=
  FUNCTION_GROUPS.filter (fun fg => l.any (fun p => p.function_group == fg))

/-- Number of distinct product-type values in the data (len(set(...))). -/
def n_types (l : List Product) : Nat := ((l.map (fun p => p.product_type)).dedup).length

/-- Dimension maxima with the empty-Counter guard (max_fg / max_type / max_fl). -/
def max_fg (l : List Product) : Nat := pyMax1 (counterValues (fun p => p.function_group) l)

/-- Maximum product-type count, or 1 when the Counter is empty. -/
def max_type (l : List Product) : Nat := pyMax1 (counterValues (fun p => p.product_type) l)

/-- Maximum family-line count, or 1 when the Counter is empty. -/
def max_fl (l : List Product) : Nat := pyMax1 (counterValues (fun p => p.family_line) l)

/-- Dot color of a function group from FUNCTION_COLORS.  The script indexes
the dict directly; the renderer only does so for registry groups, where the
lookup always succeeds, so the none branch is never taken there. -/
def fgDot (fg : String) : String :=
  match FUNCTION_COLORS.find? (fun e => e.1 == fg) with
  | some e => e.2.dot
  | none => ""

/-- Entity form of a product type's glyph (TYPE_SHAPES[pt][0]); the renderer
only applies it to registry product types, where the lookup succeeds. -/
def typeIcon (pt : String) : String :=
  match TYPE_SHAPES.find? (fun e => e.1 == pt) with
  | some e => e.2.1
  | none => ""

/-- One product badge span (badge inside generate_html_body).  Note that the
CSS class token is slug(function_group), not esc(function_group). -/
def badge (p : Product) : String :=
  "<span class=\"pl-badge fg-" ++ slug p.function_group ++ "\" title=\"" ++ esc p.name
    ++ "&#10;" ++ esc p.function_group ++ " &middot; " ++ esc p.product_type
    ++ "&#10;" ++ esc p.family_line ++ "\">"
    ++ "<span class=\"pl-dot\"></span>"
    ++ esc p.name
    ++ "</span>"

/-- One distribution bar row (dist_bar inside generate_html_body).  The
script computes pct = pctOf count maxCount as a float and renders it with
one decimal digit; fmtTenths (pctTenths count maxCount) is that composition. -/
def dist_bar (label : String) (count maxCount : Nat) (color : String) (small : Bool) : String :=
  let labelCls := if small then "pl-dist-label pl-dist-label-sm" else "pl-dist-label"
  "<div class=\"pl-dist-row\">"
    ++ "<span class=\"" ++ labelCls ++ "\">" ++ esc label ++ "</span>"
    ++ "<div class=\"pl-dist-track\">"
    ++ "<div class=\"pl-dist-fill\" style=\"width:" ++ fmtTenths (pctTenths count maxCount) ++ "%;background:" ++ color ++ "\"></div>"
    ++ "</div>"
    ++ "<span class=\"pl-dist-count\">" ++ toString count ++ "</span>"
    ++ "</div>"

/-- Descending-count order used by the three distribution sorts: the script
sorts ascending by key -count, i.e. a before b when -count(a) <= -count(b). -/
def byCountDesc (cnt : String → Nat) (a b : String) : Prop :=
  -(cnt a : ℤ) ≤ -(cnt b : ℤ)

instance (cnt : String → Nat) : DecidableRel (byCountDesc cnt) := fun _ _ =>
  Int.decLe _ _

instance (cnt : String → Nat) : IsTotal String (byCountDesc cnt) :=
  ⟨fun a b => Int.le_total _ _⟩

instance (cnt : String → Nat) : IsTrans String (byCountDesc cnt) :=
  ⟨fun _ _ _ h1 h2 => le_trans h1 h2⟩

/-- Function groups sorted for the distribution section: Python's sorted is
the stable sort by ascending -count, which insertionSort with byCountDesc
reproduces exactly (both are stable with respect to the same order). -/
def sorted_fgs (l : List Product) : List String :=
  List.insertionSort (byCountDesc (fg_counts l)) (function_groups_in_data l)

/-- Product types sorted by descending count (the full registry list). -/
def sorted_types (l : List Product) : List String :=
  List.insertionSort (byCountDesc (type_counts l)) PRODUCT_TYPES

/-- Family lines sorted by descending count. -/
def sorted_fls (l : List Product) : List String :=
  List.insertionSort (byCountDesc (fl_counts l)) (family_lines_in_data l)

/-- Rendered rows of the By Function Group distribution column. -/
def dist_fg_parts (l : List Product) : List String :=
  (sorted_fgs l).map (fun fg => "      " ++ dist_bar fg (fg_counts l fg) (max_fg l) (fgDot fg) false)

/-- Rendered rows of the By Product Type distribution column. -/
def dist_type_parts (l : List Product) : List String :=
  (sorted_types l).map (fun pt => "      " ++ dist_bar pt (type_counts l pt) (max_type l) "#475569" true)

/-- Rendered rows of the By Family Line distribution column. -/
def dist_fl_parts (l : List Product) : List String :=
  (sorted_fls l).map (fun fl => "      " ++ dist_bar fl (fl_counts l fl) (max_fl l) "#818CF8" false)

/-- One stat chip of the header stats row. -/
def stat_part (val : Nat) (label : String) : String :=
  "    <div class=\"pl-stat\">"
    ++ "<span class=\"pl-stat-val\">" ++ toString val ++ "</span>"
    ++ "<span class=\"pl-stat-lbl\">" ++ label ++ "</span></div>"

/-- Legend chips, one per function group present in the data. -/
def legend_parts (l : List Product) : List String :=
  (function_groups_in_data l).map (fun fg =>
    "    <span class=\"pl-legend-chip\">"
      ++ "<span class=\"pl-legend-dot fg-" ++ slug fg ++ "\"></span>"
      ++ esc fg ++ "</span>")

/-- Shape-key entries, one per registry product type. -/
def shape_parts : List String :=
  PRODUCT_TYPES.map (fun pt =>
    "  <span class=\"pl-shape-item\">"
      ++ "<span class=\"pl-shape-icon\">" ++ typeIcon pt ++ "</span> " ++ esc pt ++ "</span>")

/-- Matrix header row: the Family Line column plus one column per registry
product type, each with its total count. -/
def matrix_head_parts (l : List Product) : List String :=
  ["<thead><tr>", "  <th>Family Line</th>"]
    ++ PRODUCT_TYPES.map (fun pt =>
      "  <th>"
        ++ "<span class=\"pl-col-icon\">" ++ typeIcon pt ++ "</span>"
        ++ "<span class=\"pl-col-title\">" ++ esc pt ++ "</span><br/>"
        ++ "<span class=\"pl-col-count\">" ++ toString (type_counts l pt) ++ " products</span></th>")
    ++ ["</tr></thead>"]

/-- One matrix cell: the badges of its products, or the em-dash empty marker. -/
def cell_td (l : List Product) (fl pt : String) : String :=
  let cell := get_products l fl pt
  let inner := if cell.isEmpty then "<span class=\"pl-empty\">&mdash;</span>"
               else String.join (cell.map badge)
  "  <td><div class=\"pl-cell\">" ++ inner ++ "</div></td>"

/-- One matrix body row: title cell then one cell per registry product type. -/
def row_parts (l : List Product) (fl : String) : List String :=
  ["<tr>",
   "  <td><span class=\"pl-row-title\">" ++ esc fl ++ "</span>"
     ++ "<span class=\"pl-row-count\">" ++ toString (fl_counts l fl) ++ " products</span></td>"]
    ++ PRODUCT_TYPES.map (cell_td l fl) ++ ["</tr>"]

/-- All matrix body rows, one per family line present in the data. -/
def matrix_row_parts (l : List Product) : List String :=
  ((family_lines_in_data l).map (row_parts l)).flatten

/-- The parts list generate_html_body accumulates, in exact append order. -/
def body_parts (l : List Product) : List String :=
  ["<div class=\"pl\">",
   "<div class=\"pl-accent\"></div>",
   "<div class=\"pl-header\">",
   "  <p class=\"pl-eyebrow\">Organization Overview</p>",
   "  <h1>Product Landscape</h1>",
   "  <p class=\"pl-subtitle\">How our " ++ toString l.length
     ++ " products align across function groups, product types, and family lines &mdash; a single view of the full portfolio.</p>",
   "  <div class=\"pl-stats\">",
   stat_part l.length "Products",
   stat_part (family_lines_in_data l).length "Family Lines",
   stat_part (n_types l) "Product Types",
   stat_part (function_groups_in_data l).length "Function Groups",
   "  </div>",
   "</div>",
   "<div class=\"pl-legend\">",
   "  <p class=\"pl-eyebrow\">Function Groups</p>",
   "  <div class=\"pl-legend-items\">"]
  ++ legend_parts l
  ++ ["  </div>", "</div>", "<div class=\"pl-shapes\">",
      "  <span class=\"pl-eyebrow\">Product Types</span>"]
  ++ shape_parts
  ++ ["</div>", "<div class=\"pl-matrix-wrap\">", "<table class=\"pl-matrix\">"]
  ++ matrix_head_parts l
  ++ ["<tbody>"]
  ++ matrix_row_parts l
  ++ ["</tbody>", "</table>", "</div>"]
  ++ ["<div class=\"pl-dist\">",
      "  <p class=\"pl-eyebrow\">Distribution Summary</p>",
      "  <div class=\"pl-dist-grid\">",
      "    <div class=\"pl-dist-col\">",
      "      <h3>By Function Group</h3>"]
  ++ dist_fg_parts l
  ++ ["    </div>", "    <div class=\"pl-dist-col\">", "      <h3>By Product Type</h3>"]
  ++ dist_type_parts l
  ++ ["    </div>", "    <div class=\"pl-dist-col\">", "      <h3>By Family Line</h3>"]
  ++ dist_fl_parts l
  ++ ["    </div>", "  </div>", "</div>",
      "<div class=\"pl-footer\">",
      "  <p>Product Landscape &middot; " ++ toString l.length
        ++ " Products &middot; 3 Classification Dimensions</p>",
      "</div>",
      "</div>"]

/-- HTML body for the Bob Swift HTML macro (generate_html_body). -/
def generate_html_body (l : List Product) : String :=
  String.intercalate "\n" (body_parts l)

/-- Badge/legend color rules for one function group (fg_rules entry inside
generate_css). -/
def fg_rule (fg : String) (c : FColor) : String :=
  ".pl-badge.fg-" ++ slug fg ++ " \x7b\n"
    ++ "  background: " ++ c.bg ++ ";\n"
    ++ "  color: " ++ c.text ++ ";\n"
    ++ "  border: 1px solid " ++ c.border ++ ";\n"
    ++ "\x7d\n"
    ++ ".pl-badge.fg-" ++ slug fg ++ " .pl-dot \x7b\n"
    ++ "  background: " ++ c.dot ++ ";\n"
    ++ "\x7d\n"
    ++ ".pl-legend-dot.fg-" ++ slug fg ++ " \x7b\n"
    ++ "  background: " ++ c.dot ++ ";\n"
    ++ "\x7d"

/-- The 59-character double-bar banner of the stylesheet's comment header,
built by length (same string as the script's banner line). -/
def cssBanner : String := String.mk (List.replicate 59 '═')

/-- Static part of the stylesheet: the template lines of generate_css before
the interpolated function-group rules. -/
def cssHeaderLines : List String :=
  ["/* " ++ cssBanner,
   "   Product Landscape – Confluence CSS Macro Stylesheet",
   "   Paste this into a CSS macro on the same Confluence page",
   "   " ++ cssBanner ++ " */",
   "",
   "/* ── Reset scoped to .pl ─────────────────────────────── */",
   ".pl * \x7b margin: 0; padding: 0; box-sizing: border-box; \x7d",
   ".pl \x7b",
   "  max-width: 1440px;",
   "  margin: 0 auto;",
   "  font-family: -apple-system, BlinkMacSystemFont, \"Segoe UI\", Roboto, Helvetica, Arial, sans-serif;",
   "  color: #1e293b;",
   "  line-height: 1.5;",
   "\x7d",
   "",
   "/* ── Accent bar ──────────────────────────────────────── */",
   ".pl-accent \x7b",
   "  height: 6px;",
   "  background: linear-gradient(to right, #3B82F6, #8B5CF6, #10B981);",
   "  border-radius: 4px 4px 0 0;",
   "\x7d",
   "",
   "/* ── Header ──────────────────────────────────────────── */",
   ".pl-header \x7b",
   "  padding: 36px 0 28px 0;",
   "  border-bottom: 1px solid #e2e8f0;",
   "\x7d",
   ".pl-eyebrow \x7b",
   "  font-size: 11px;",
   "  font-weight: 600;",
   "  letter-spacing: 0.15em;",
   "  color: #94a3b8;",
   "  text-transform: uppercase;",
   "  margin-bottom: 10px;",
   "\x7d",
   ".pl-header h1 \x7b",
   "  font-size: 30px;",
   "  font-weight: 700;",
   "  color: #0f172a;",
   "  letter-spacing: -0.025em;",
   "  margin-bottom: 8px;",
   "\x7d",
   ".pl-subtitle \x7b",
   "  color: #64748b;",
   "  font-size: 14px;",
   "  line-height: 1.6;",
   "  max-width: 640px;",
   "  margin-bottom: 28px;",
   "\x7d",
   "",
   "/* ── Stats row ───────────────────────────────────────── */",
   ".pl-stats \x7b",
   "  display: flex;",
   "  flex-wrap: wrap;",
   "  gap: 14px;",
   "\x7d",
   ".pl-stat \x7b",
   "  display: flex;",
   "  align-items: center;",
   "  gap: 12px;",
   "  border: 1px solid #e2e8f0;",
   "  border-radius: 8px;",
   "  padding: 10px 22px;",
   "\x7d",
   ".pl-stat-val \x7b",
   "  font-size: 24px;",
   "  font-weight: 700;",
   "  color: #0f172a;",
   "\x7d",
   ".pl-stat-lbl \x7b",
   "  font-size: 13px;",
   "  color: #64748b;",
   "\x7d",
   "",
   "/* ── Legend ───────────────────────────────────────────── */",
   ".pl-legend \x7b",
   "  background: #f8fafc;",
   "  padding: 20px 24px;",
   "  border-radius: 8px;",
   "  margin: 16px 0;",
   "\x7d",
   ".pl-legend-items \x7b",
   "  display: flex;",
   "  flex-wrap: wrap;",
   "  gap: 6px 16px;",
   "  margin-top: 10px;",
   "\x7d",
   ".pl-legend-chip \x7b",
   "  display: inline-flex;",
   "  align-items: center;",
   "  gap: 8px;",
   "  padding: 5px 14px;",
   "  border-radius: 999px;",
   "  font-size: 12px;",
   "  color: #334155;",
   "  background: #fff;",
   "  border: 1px solid #e2e8f0;",
   "\x7d",
   ".pl-legend-dot \x7b",
   "  width: 11px;",
   "  height: 11px;",
   "  border-radius: 3px;",
   "  flex-shrink: 0;",
   "\x7d",
   "",
   "/* ── Shape key ───────────────────────────────────────── */",
   ".pl-shapes \x7b",
   "  display: flex;",
   "  align-items: center;",
   "  gap: 12px;",
   "  padding: 12px 0 20px 0;",
   "  flex-wrap: wrap;",
   "\x7d",
   ".pl-shapes .pl-eyebrow \x7b",
   "  margin-bottom: 0;",
   "  margin-right: 8px;",
   "\x7d",
   ".pl-shape-item \x7b",
   "  display: inline-flex;",
   "  align-items: center;",
   "  gap: 6px;",
   "  font-size: 13px;",
   "  color: #475569;",
   "  margin-right: 20px;",
   "\x7d",
   ".pl-shape-icon \x7b",
   "  font-size: 15px;",
   "  color: #334155;",
   "\x7d",
   "",
   "/* ── Matrix table ────────────────────────────────────── */",
   ".pl-matrix-wrap \x7b",
   "  overflow-x: auto;",
   "  padding-bottom: 16px;",
   "\x7d",
   ".pl-matrix \x7b",
   "  width: 100%;",
   "  border-collapse: collapse;",
   "  border: 1px solid #e2e8f0;",
   "  border-radius: 12px;",
   "  overflow: hidden;",
   "  min-width: 920px;",
   "\x7d",
   ".pl-matrix thead th \x7b",
   "  background: #fff;",
   "  padding: 14px 12px;",
   "  border-bottom: 2px solid #e2e8f0;",
   "  vertical-align: bottom;",
   "  text-align: center;",
   "\x7d",
   ".pl-matrix thead th:first-child \x7b",
   "  text-align: left;",
   "  width: 175px;",
   "  font-size: 11px;",
   "  font-weight: 600;",
   "  letter-spacing: 0.1em;",
   "  color: #94a3b8;",
   "  text-transform: uppercase;",
   "\x7d",
   ".pl-col-icon \x7b",
   "  font-size: 22px;",
   "  color: #334155;",
   "  display: block;",
   "  margin-bottom: 4px;",
   "\x7d",
   ".pl-col-title \x7b",
   "  font-size: 13px;",
   "  font-weight: 600;",
   "  color: #1e293b;",
   "\x7d",
   ".pl-col-count \x7b",
   "  font-size: 11px;",
   "  color: #94a3b8;",
   "\x7d",
   "",
   ".pl-matrix tbody td \x7b",
   "  padding: 12px;",
   "  border-bottom: 1px solid #f1f5f9;",
   "  vertical-align: top;",
   "\x7d",
   ".pl-matrix tbody td:first-child \x7b",
   "  padding: 14px 16px;",
   "\x7d",
   ".pl-matrix tbody tr:nth-child(even) td \x7b",
   "  background: #fff;",
   "\x7d",
   ".pl-matrix tbody tr:nth-child(odd) td \x7b",
   "  background: #fafbfc;",
   "\x7d",
   ".pl-row-title \x7b",
   "  font-size: 13px;",
   "  font-weight: 600;",
   "  color: #1e293b;",
   "  display: block;",
   "  line-height: 1.3;",
   "\x7d",
   ".pl-row-count \x7b",
   "  font-size: 11px;",
   "  color: #94a3b8;",
   "\x7d",
   ".pl-cell \x7b",
   "  display: flex;",
   "  flex-wrap: wrap;",
   "  gap: 5px;",
   "  align-content: flex-start;",
   "  min-height: 36px;",
   "  min-width: 150px;",
   "\x7d",
   ".pl-empty \x7b",
   "  color: #cbd5e1;",
   "  font-size: 12px;",
   "\x7d",
   "",
   "/* ── Product badges ──────────────────────────────────── */",
   ".pl-badge \x7b",
   "  display: inline-flex;",
   "  align-items: center;",
   "  padding: 4px 10px;",
   "  border-radius: 6px;",
   "  font-size: 11px;",
   "  font-weight: 500;",
   "  line-height: 1;",
   "  white-space: nowrap;",
   "  cursor: default;",
   "  transition: transform 0.1s, box-shadow 0.1s;",
   "\x7d",
   ".pl-badge:hover \x7b",
   "  transform: translateY(-1px);",
   "  box-shadow: 0 2px 6px rgba(0,0,0,0.08);",
   "\x7d",
   ".pl-dot \x7b",
   "  width: 7px;",
   "  height: 7px;",
   "  border-radius: 50%;",
   "  margin-right: 6px;",
   "  flex-shrink: 0;",
   "\x7d",
   "",
   "/* ── Distribution section ────────────────────────────── */",
   ".pl-dist \x7b",
   "  background: #f8fafc;",
   "  border: 1px solid #e2e8f0;",
   "  border-radius: 8px;",
   "  padding: 32px 28px;",
   "  margin-top: 12px;",
   "\x7d",
   ".pl-dist-grid \x7b",
   "  display: grid;",
   "  grid-template-columns: 1fr;",
   "  gap: 36px;",
   "  margin-top: 20px;",
   "\x7d",
   "@media (min-width: 768px) \x7b",
   "  .pl-dist-grid \x7b",
   "    grid-template-columns: repeat(3, 1fr);",
   "  \x7d",
   "\x7d",
   ".pl-dist-col h3 \x7b",
   "  font-size: 14px;",
   "  font-weight: 600;",
   "  color: #334155;",
   "  margin-bottom: 14px;",
   "\x7d",
   ".pl-dist-row \x7b",
   "  display: flex;",
   "  align-items: center;",
   "  gap: 8px;",
   "  margin-bottom: 7px;",
   "\x7d",
   ".pl-dist-label \x7b",
   "  font-size: 11px;",
   "  color: #64748b;",
   "  width: 120px;",
   "  text-align: right;",
   "  flex-shrink: 0;",
   "  overflow: hidden;",
   "  text-overflow: ellipsis;",
   "  white-space: nowrap;",
   "\x7d",
   ".pl-dist-label-sm \x7b",
   "  width: 90px;",
   "\x7d",
   ".pl-dist-track \x7b",
   "  flex: 1;",
   "  height: 14px;",
   "  background: #f1f5f9;",
   "  border-radius: 2px;",
   "  overflow: hidden;",
   "\x7d",
   ".pl-dist-fill \x7b",
   "  height: 100%;",
   "  border-radius: 2px;",
   "  transition: width 0.3s ease;",
   "\x7d",
   ".pl-dist-count \x7b",
   "  font-size: 11px;",
   "  font-weight: 500;",
   "  color: #475569;",
   "  width: 22px;",
   "  text-align: right;",
   "  flex-shrink: 0;",
   "\x7d",
   "",
   "/* ── Footer ──────────────────────────────────────────── */",
   ".pl-footer \x7b",
   "  padding: 20px 0;",
   "  border-top: 1px solid #e2e8f0;",
   "  margin-top: 16px;",
   "\x7d",
   ".pl-footer p \x7b",
   "  font-size: 12px;",
   "  color: #94a3b8;",
   "\x7d",
   "",
   "/* ── Function group badge colors ─────────────────────── */"]

/-- CSS stylesheet for the product landscape (generate_css). -/
def generate_css : String :=
  String.intercalate "\n" cssHeaderLines ++ "\n"
    ++ String.intercalate "\n" (FUNCTION_COLORS.map (fun e => fg_rule e.1 e.2)) ++ "\n"

/-- Document text before the embedded stylesheet in generate_standalone_html. -/
def standalone_doc_head : String :=
  "<!DOCTYPE html>\n<html lang=\"en\">\n<head>\n<meta charset=\"UTF-8\">\n"
    ++ "<meta name=\"viewport\" content=\"width=device-width, initial-scale=1.0\">\n"
    ++ "<title>Product Landscape</title>\n<style>\n"
    ++ "body \x7b margin: 0; padding: 24px; background: #fff; \x7d\n"

/-- Document text between the embedded stylesheet and the embedded body. -/
def standalone_doc_mid : String := "\n</style>\n</head>\n<body>\n"

/-- Document text after the embedded body. -/
def standalone_doc_tail : String := "\n</body>\n</html>"

/-- Full HTML document combining CSS + body (generate_standalone_html). -/
def generate_standalone_html (l : List Product) : String :=
  standalone_doc_head ++ generate_css ++ standalone_doc_mid
    ++ generate_html_body l ++ standalone_doc_tail

/-- Opening of the Confluence CSS macro wrapper. -/
def css_macro_open : String :=
  "<ac:structured-macro ac:name=\"css\">\n<ac:plain-text-body><![CDATA[\n"

/-- Opening of the Confluence Bob Swift HTML macro wrapper. -/
def html_macro_open : String :=
  "<ac:structured-macro ac:name=\"html-bobswift\">\n<ac:plain-text-body><![CDATA[\n"

/-- Closing of either macro wrapper. -/
def macro_close : String := "\n]]></ac:plain-text-body>\n</ac:structured-macro>"

/-- Confluence storage format: CSS macro then HTML macro
(generate_confluence_storage). -/
def generate_confluence_storage (l : List Product) : String :=
  (css_macro_open ++ generate_css ++ macro_close) ++ "\n\n"
    ++ (html_macro_open ++ generate_html_body l ++ macro_close)

/-- Structure fragment main writes for the --confluence-html option: exactly
generate_html_body(products). -/
def confluence_html_output (l : List Product) : String := generate_html_body l

/-- Presentation fragment main writes for the --confluence-css option:
exactly generate_css(). -/
def confluence_css_output : String := generate_css

/-- Observable steps of main's --publish branch: error/status prints and the
two network calls of the read-modify-write publish. -/
inductive MainAction where
  | printErr (msg : String)
  | printOut (msg : String)
  | netGet
  | netPut
deriving DecidableEq

/-- Environment-variable names required for publishing (required_vars). -/
def requiredVars : List String :=
  ["CONFLUENCE_URL", "CONFLUENCE_PAGE_ID", "CONFLUENCE_USER", "CONFLUENCE_TOKEN"]

/-- Python's `not os.environ.get(v)`: true when the variable is absent or
set to the empty string. -/
def blankVar (env : String → Option String) (v : String) : Bool :=
  match env v with
  | none => true
  | some s => s == ""

/-- The missing-settings list main computes before publishing. -/
def missingVars (env : String → Option String) : List String :=
  requiredVars.filter (blankVar env)

/-- Model of main's --publish branch (the trace of observable actions and
the exit code, none meaning a normal exit).  The network replies of the
success path are external and are modelled only as call events; the missing-
settings path is modelled action for action from the source. -/
def publishBranch (env : String → Option String) : List MainAction × Option Nat :=
  let missing := missingVars env
  if missing.isEmpty then
    ([MainAction.netGet, MainAction.netPut], none)
  else
    (MainAction.printErr
        ("Error: Missing environment variables: " ++ String.intercalate ", " missing)
      :: requiredVars.map (fun v => MainAction.printErr ("  export " ++ v ++ "=...")),
     some 1)

/-- True exactly on the network-call actions. -/
def isNetAction : MainAction → Bool
  | MainAction.netGet => true
  | MainAction.netPut => true
  | _ => false

/-- Boolean prefix test on character lists, for substring statements. -/
def hasPre : List Char → List Char → Bool
  | [], _ => true
  | _ :: _, [] => false
  | a :: as, b :: bs => a == b && hasPre as bs

/-- Boolean substring test on character lists: pat occurs contiguously. -/
def hasSub (pat : List Char) : List Char → Bool
  | [] => hasPre pat []
  | c :: rest => hasPre pat (c :: rest) || hasSub pat rest

/-- Boolean test for the markup-sensitive characters the escaping claim
names: ampersand, angle brackets, double quote. -/
def hasMarkupChar (s : String) : Bool :=
  s.data.any (fun c => c == '&' || c == '<' || c == '>' || c == '"')

/-! Helper lemmas: counting. -/

theorem dimCount_eq_count_map (f : Product → String) (l : List Product) (c : String) :
    dimCount f l c = (l.map f).count c := by
  rw [dimCount, List.count_eq_countP, List.countP_map]
  rfl

theorem sum_counts (f : Product → String) (l : List Product) :
    ((counterKeys f l).map (dimCount f l)).sum = l.length := by
  have h1 : ((counterKeys f l).map (dimCount f l))
      = ((l.map f).dedup.map fun x => (l.map f).count x) := by
    apply List.map_congr_left
    intro c _
    exact dimCount_eq_count_map f l c
  rw [h1, List.sum_map_count_dedup_eq_length, List.length_map]

/-! Helper lemmas: maxima. -/

theorem le_foldr_max_of_mem {t : List Nat} {v a : Nat} (h : a ∈ v :: t) :
    a ≤ t.foldr max v := by
  induction t generalizing v with
  | nil => simp only [List.mem_singleton] at h; subst h; simp
  | cons b t ih =>
    simp only [List.foldr_cons]
    rcases List.mem_cons.mp h with rfl | h'
    · have : a ≤ t.foldr max a := ih (List.mem_cons_self a t)
      omega
    · rcases List.mem_cons.mp h' with rfl | h''
      · omega
      · have : a ≤ t.foldr max v := ih (List.mem_cons.mpr (Or.inr h''))
        omega

/-- Rounding a fraction of naturals half-to-even: the rational rounding of
n/m equals the integer computation pctTenths performs. -/
theorem halfEvenDiv (n m a b : ℕ) (hm : 0 < m) (hn : n = m * a + b) (hb : b < m) :
    roundHalfEven ((n : ℚ) / (m : ℚ))
      = if 2 * b < m then (a : ℤ) else if m < 2 * b then (a : ℤ) + 1
        else if (a : ℤ) % 2 = 0 then (a : ℤ) else (a : ℤ) + 1 := by
  have hmq : (0:ℚ) < m := by exact_mod_cast hm
  have hnq : (n:ℚ) = m * a + b := by exact_mod_cast congrArg (Nat.cast : ℕ → ℚ) hn
  have hfloor : ⌊(n:ℚ)/(m:ℚ)⌋ = (a:ℤ) := by
    rw [Int.floor_eq_iff]
    constructor
    · rw [le_div_iff₀ hmq]
      push_cast
      nlinarith [hnq]
    · rw [div_lt_iff₀ hmq]
      push_cast
      have hbq : (b:ℚ) < m := by exact_mod_cast hb
      nlinarith [hnq]
  have hres : (n:ℚ)/(m:ℚ) - (((a:ℤ)):ℚ) = (b:ℚ)/(m:ℚ) := by
    field_simp
    linarith [hnq]
  have hcond1 : ((b:ℚ)/(m:ℚ) < 1/2) ↔ (2 * b < m) := by
    rw [div_lt_iff₀ hmq]
    constructor
    · intro h
      have h2 : ((2 * b : ℕ) : ℚ) < m := by push_cast; linarith
      exact_mod_cast h2
    · intro h
      have h2 : ((2 * b : ℕ) : ℚ) < m := by exact_mod_cast h
      push_cast at h2
      linarith
  have hcond2 : ((1:ℚ)/2 < (b:ℚ)/(m:ℚ)) ↔ (m < 2 * b) := by
    rw [lt_div_iff₀ hmq]
    constructor
    · intro h
      have h2 : (m : ℚ) < ((2 * b : ℕ) : ℚ) := by push_cast; linarith
      exact_mod_cast h2
    · intro h
      have h2 : (m : ℚ) < ((2 * b : ℕ) : ℚ) := by exact_mod_cast h
      push_cast at h2
      linarith
  unfold roundHalfEven
  simp only [hfloor]
  rw [hres]
  by_cases h1 : 2 * b < m
  · rw [if_pos (hcond1.mpr h1), if_pos h1]
  · rw [if_neg (fun hq => h1 (hcond1.mp hq)), if_neg h1]
    by_cases h2 : m < 2 * b
    · rw [if_pos (hcond2.mpr h2), if_pos h2]
    · rw [if_neg (fun hq => h2 (hcond2.mp hq)), if_neg h2]

/-- The rendered tenths-of-percent value is exactly the round-half-even of
the rational percentage pctOf: the integer formatter of dist_bar agrees with
the rational model of the script's pct. -/
theorem pctTenths_eq (c m : Nat) : (pctTenths c m : ℤ) = roundHalfEven (pctOf c m * 10) := by
  by_cases hm : 0 < m
  · have hx : pctOf c m * 10 = ((c * 1000 : ℕ) : ℚ) / (m : ℚ) := by
      unfold pctOf
      rw [if_pos hm]
      push_cast
      ring
    rw [hx, halfEvenDiv (c * 1000) m ((c * 1000) / m) ((c * 1000) % m) hm
          (Nat.div_add_mod (c * 1000) m).symm (Nat.mod_lt _ hm)]
    unfold pctTenths
    rw [if_pos hm]
    simp only []
    split_ifs <;> omega
  · simp [pctTenths, pctOf, roundHalfEven, hm]

theorem dimCount_le_pyMax (f : Product → String) (l : List Product) (c : String) :
    dimCount f l c ≤ pyMax1 (counterValues f l) := by
  by_cases hc : c ∈ counterKeys f l
  · have hv : dimCount f l c ∈ counterValues f l :=
      List.mem_map_of_mem (fun c => dimCount f l c) hc
    cases hvs : counterValues f l with
    | nil => rw [hvs] at hv; simp at hv
    | cons v vs =>
      rw [hvs] at hv
      exact le_foldr_max_of_mem hv
  · have h0 : dimCount f l c = 0 := by
      rw [dimCount, List.countP_eq_zero]
      intro p hp
      simp only [beq_iff_eq]
      intro hfp
      exact hc (by
        rw [counterKeys, List.mem_dedup]
        exact hfp ▸ List.mem_map_of_mem f hp)
    simp [h0]

/-! Helper lemmas: ratio bounds. -/

theorem pctOf_nonneg (c m : Nat) : 0 ≤ pctOf c m := by
  unfold pctOf
  split
  · positivity
  · exact le_refl 0

theorem pctOf_le_100 {c m : Nat} (h : c ≤ m) : pctOf c m ≤ 100 := by
  unfold pctOf
  split
  · rename_i hm
    have hmq : (0:ℚ) < m := by exact_mod_cast hm
    rw [div_mul_eq_mul_div, div_le_iff₀ hmq]
    have hcq : (c:ℚ) ≤ m := by exact_mod_cast h
    nlinarith
  · norm_num

theorem pctOf_max {c : Nat} (h : 0 < c) : pctOf c c = 100 := by
  unfold pctOf
  rw [if_pos h, div_self (by exact_mod_cast Nat.pos_iff_ne_zero.mp h), one_mul]

theorem pctOf_zero (m : Nat) : pctOf 0 m = 0 := by
  unfold pctOf
  split <;> simp

theorem dim_ratio_bounds (f : Product → String) (l : List Product) (c : String) :
    0 ≤ pctOf (dimCount f l c) (pyMax1 (counterValues f l))
    ∧ pctOf (dimCount f l c) (pyMax1 (counterValues f l)) ≤ 100
    ∧ (dimCount f l c = pyMax1 (counterValues f l) → 0 < dimCount f l c →
        pctOf (dimCount f l c) (pyMax1 (counterValues f l)) = 100) := by
  refine ⟨pctOf_nonneg _ _, pctOf_le_100 (dimCount_le_pyMax f l c), ?_⟩
  intro heq hpos
  rw [heq] at hpos ⊢
  exact pctOf_max hpos

/-- Records of the concrete scenario in the specification: A and B are Sales
Tools in Growth Cloud, C is an Engineering Platform in Enterprise Suite. -/
def demoProducts : List Product :=
  [⟨"A", "Sales", "Tool", "Growth Cloud"⟩,
   ⟨"B", "Sales", "Tool", "Growth Cloud"⟩,
   ⟨"C", "Engineering", "Platform", "Enterprise Suite"⟩]

/-- C1: for every record list and each of the three dimensions, the sum of
the per-category counts of the dimension's Counter, taken over the Counter's
key set, equals the number of input records. -/
theorem c1_count_conservation (l : List Product) :
    ((counterKeys (fun p => p.function_group) l).map (fg_counts l)).sum = l.length
    ∧ ((counterKeys (fun p => p.product_type) l).map (type_counts l)).sum = l.length
    ∧ ((counterKeys (fun p => p.family_line) l).map (fl_counts l)).sum = l.length :=
  ⟨sum_counts _ l, sum_counts _ l, sum_counts _ l⟩

/-- C6: every distribution ratio lies in [0,100] percent; a category whose
count equals the dimension maximum and is positive gets exactly 100 percent;
and on the empty record list every maximum guard yields 1 (so no division by
zero) and every percentage is 0. -/
theorem c6_ratio_bounds (l : List Product) :
    (∀ c, 0 ≤ pctOf (fg_counts l c) (max_fg l)
        ∧ pctOf (fg_counts l c) (max_fg l) ≤ 100
        ∧ (fg_counts l c = max_fg l → 0 < fg_counts l c →
            pctOf (fg_counts l c) (max_fg l) = 100))
    ∧ (∀ c, 0 ≤ pctOf (type_counts l c) (max_type l)
        ∧ pctOf (type_counts l c) (max_type l) ≤ 100
        ∧ (type_counts l c = max_type l → 0 < type_counts l c →
            pctOf (type_counts l c) (max_type l) = 100))
    ∧ (∀ c, 0 ≤ pctOf (fl_counts l c) (max_fl l)
        ∧ pctOf (fl_counts l c) (max_fl l) ≤ 100
        ∧ (fl_counts l c = max_fl l → 0 < fl_counts l c →
            pctOf (fl_counts l c) (max_fl l) = 100))
    ∧ (l = [] → max_fg l = 1 ∧ max_type l = 1 ∧ max_fl l = 1
        ∧ ∀ c, pctOf (fg_counts l c) (max_fg l) = 0
             ∧ pctOf (type_counts l c) (max_type l) = 0
             ∧ pctOf (fl_counts l c) (max_fl l) = 0) := by
  refine ⟨fun c => dim_ratio_bounds _ l c, fun c => dim_ratio_bounds _ l c,
          fun c => dim_ratio_bounds _ l c, ?_⟩
  rintro rfl
  exact ⟨rfl, rfl, rfl, fun c => ⟨pctOf_zero 1, pctOf_zero 1, pctOf_zero 1⟩⟩

/-- Witness for C6 at the specification's concrete scenario: Sales holds the
maximum function-group count, so its bar is exactly 100 percent. -/
theorem c6_ratio_bounds_witness :
    pctOf (fg_counts demoProducts "Sales") (max_fg demoProducts) = 100 :=
  (((c6_ratio_bounds demoProducts).1 "Sales").2.2) (by decide) (by decide)

/-! Helper lemmas: the stable descending sort of the distribution sections. -/

theorem byCountDesc_iff (cnt : String → Nat) (a b : String) :
    byCountDesc cnt a b ↔ cnt b ≤ cnt a := by
  unfold byCountDesc
  omega

theorem insertionSort_desc (cnt : String → Nat) (l : List String) :
    (List.insertionSort (byCountDesc cnt) l).Pairwise (fun a b => cnt b ≤ cnt a) :=
  (List.sorted_insertionSort (byCountDesc cnt) l).imp fun h => (byCountDesc_iff cnt _ _).mp h

theorem filter_orderedInsert_count (cnt : String → Nat) (k : Nat) (a : String)
    (L : List String) :
    (List.orderedInsert (byCountDesc cnt) a L).filter (fun x => cnt x == k)
      = if cnt a == k then a :: L.filter (fun x => cnt x == k)
        else L.filter (fun x => cnt x == k) := by
  induction L with
  | nil =>
    by_cases hk : (cnt a == k) = true <;> simp [List.orderedInsert, List.filter, hk]
  | cons b t ih =>
    by_cases hr : byCountDesc cnt a b
    · rw [List.orderedInsert_of_le _ _ hr]
      by_cases hk : (cnt a == k) = true <;> simp [List.filter_cons, hk]
    · have hstep : List.orderedInsert (byCountDesc cnt) a (b :: t)
          = b :: List.orderedInsert (byCountDesc cnt) a t := by
        simp [List.orderedInsert, hr]
      rw [hstep, List.filter_cons, ih]
      by_cases hk : (cnt a == k) = true
      · have hak : cnt a = k := by simpa using hk
        have hlt : cnt a < cnt b := by
          by_contra hc
          exact hr ((byCountDesc_iff cnt a b).mpr (by omega))
        have hbk : (cnt b == k) = false := by
          simp only [beq_eq_false_iff_ne, ne_eq]
          omega
        rw [if_pos hk, hbk, if_pos hk, List.filter_cons, hbk]
        simp
      · rw [if_neg hk, if_neg hk, List.filter_cons]

theorem filter_insertionSort_count (cnt : String → Nat) (k : Nat) (l : List String) :
    (List.insertionSort (byCountDesc cnt) l).filter (fun x => cnt x == k)
      = l.filter (fun x => cnt x == k) := by
  induction l with
  | nil => rfl
  | cons a t ih =>
    rw [List.insertionSort, filter_orderedInsert_count, ih, List.filter_cons]

/-- C5: in every rendered distribution section the entries are ordered by
count descending, and entries with equal counts keep their relative order in
the registry-ordered input list (the sort is stable: filtering either list
to any fixed count k yields identical sublists). -/
theorem c5_distribution_sort (l : List Product) :
    ((sorted_fgs l).Pairwise (fun a b => fg_counts l b ≤ fg_counts l a)
      ∧ ∀ k, (sorted_fgs l).filter (fun x => fg_counts l x == k)
            = (function_groups_in_data l).filter (fun x => fg_counts l x == k))
    ∧ ((sorted_types l).Pairwise (fun a b => type_counts l b ≤ type_counts l a)
      ∧ ∀ k, (sorted_types l).filter (fun x => type_counts l x == k)
            = PRODUCT_TYPES.filter (fun x => type_counts l x == k))
    ∧ ((sorted_fls l).Pairwise (fun a b => fl_counts l b ≤ fl_counts l a)
      ∧ ∀ k, (sorted_fls l).filter (fun x => fl_counts l x == k)
            = (family_lines_in_data l).filter (fun x => fl_counts l x == k)) :=
  ⟨⟨insertionSort_desc _ _, fun k => filter_insertionSort_count _ k _⟩,
   ⟨insertionSort_desc _ _, fun k => filter_insertionSort_count _ k _⟩,
   ⟨insertionSort_desc _ _, fun k => filter_insertionSort_count _ k _⟩⟩

/-! Helper lemmas: permutation invariance. -/

theorem any_of_perm {l l' : List Product} (p : Product → Bool) (h : l.Perm l') :
    l.any p = l'.any p := by
  cases hb : l'.any p
  · simp only [List.any_eq_false] at hb ⊢
    intro x hx
    exact hb x (h.mem_iff.mp hx)
  · simp only [List.any_eq_true] at hb ⊢
    obtain ⟨x, hx, hpx⟩ := hb
    exact ⟨x, h.mem_iff.mpr hx, hpx⟩

/-- A permuted record list as in the ordering-stability scenario. -/
def demoShuffled : List Product :=
  [⟨"C", "Engineering", "Platform", "Enterprise Suite"⟩,
   ⟨"A", "Sales", "Tool", "Growth Cloud"⟩,
   ⟨"B", "Sales", "Tool", "Growth Cloud"⟩]

/-- C8: permuting the input records changes neither the present-category
lists (hence neither the matrix row list, which is the present family-line
list, nor the header with its fixed registry column order and counts) nor
any per-category count. -/
theorem c8_order_invariance (l l' : List Product) (h : l.Perm l') :
    function_groups_in_data l = function_groups_in_data l'
    ∧ family_lines_in_data l = family_lines_in_data l'
    ∧ (∀ c, fg_counts l c = fg_counts l' c)
    ∧ (∀ c, type_counts l c = type_counts l' c)
    ∧ (∀ c, fl_counts l c = fl_counts l' c)
    ∧ matrix_head_parts l = matrix_head_parts l' := by
  have hcount : ∀ c, type_counts l c = type_counts l' c :=
    fun c => h.countP_eq _
  refine ⟨?_, ?_, fun c => h.countP_eq _, hcount, fun c => h.countP_eq _, ?_⟩
  · exact List.filter_congr fun fg _ => any_of_perm _ h
  · exact List.filter_congr fun fl _ => any_of_perm _ h
  · unfold matrix_head_parts
    have : PRODUCT_TYPES.map (fun pt =>
        "  <th>" ++ "<span class=\"pl-col-icon\">" ++ typeIcon pt ++ "</span>"
          ++ "<span class=\"pl-col-title\">" ++ esc pt ++ "</span><br/>"
          ++ "<span class=\"pl-col-count\">" ++ toString (type_counts l pt)
          ++ " products</span></th>")
        = PRODUCT_TYPES.map (fun pt =>
        "  <th>" ++ "<span class=\"pl-col-icon\">" ++ typeIcon pt ++ "</span>"
          ++ "<span class=\"pl-col-title\">" ++ esc pt ++ "</span><br/>"
          ++ "<span class=\"pl-col-count\">" ++ toString (type_counts l' pt)
          ++ " products</span></th>") :=
      List.map_congr_left fun pt _ => by rw [hcount pt]
    rw [this]

/-- Witness for C8: the concrete scenario list and a permutation of it give
identical present-category lists and matrix headers. -/
theorem c8_order_invariance_witness :
    function_groups_in_data demoProducts = function_groups_in_data demoShuffled
    ∧ matrix_head_parts demoProducts = matrix_head_parts demoShuffled :=
  ⟨(c8_order_invariance demoProducts demoShuffled (by decide)).1,
   (c8_order_invariance demoProducts demoShuffled (by decide)).2.2.2.2.2⟩

/-- C9: when publishing is requested and some required remote-publish
setting is absent or empty, the publish branch performs no network call,
exits with code 1, and its first output is a single error message listing
the joined missing-variable names; every blank required variable is in that
list (all reported together). -/
theorem c9_publish_config_guard (env : String → Option String)
    (h : ∃ v ∈ requiredVars, blankVar env v = true) :
    (∀ a ∈ (publishBranch env).1, isNetAction a = false)
    ∧ (publishBranch env).2 = some 1
    ∧ ((publishBranch env).1).head? = some (MainAction.printErr
        ("Error: Missing environment variables: "
          ++ String.intercalate ", " (missingVars env)))
    ∧ ∀ v ∈ requiredVars, blankVar env v = true → v ∈ missingVars env := by
  obtain ⟨v, hv, hb⟩ := h
  have hmem : v ∈ missingVars env := List.mem_filter.mpr ⟨hv, hb⟩
  have hne : (missingVars env).isEmpty = false := by
    cases hm : missingVars env with
    | nil => rw [hm] at hmem; simp at hmem
    | cons x xs => simp [List.isEmpty]
  unfold publishBranch
  simp only [hne, Bool.false_eq_true, if_false]
  refine ⟨?_, by trivial, by trivial, fun w hw hbw => List.mem_filter.mpr ⟨hw, hbw⟩⟩
  intro a ha
  rcases List.mem_cons.mp ha with rfl | ha'
  · rfl
  · obtain ⟨w, _, rfl⟩ := List.mem_map.mp ha'
    rfl

/-- Environment with only the endpoint set: the other three publish
settings are absent. -/
def demoEnv : String → Option String := fun v =>
  if v == "CONFLUENCE_URL" then some "https://example.test/wiki" else none

/-- Witness for C9: with three settings missing, the publish branch exits
with code 1 and its trace contains no network call. -/
theorem c9_publish_config_guard_witness :
    (publishBranch demoEnv).2 = some 1
    ∧ ∀ a ∈ (publishBranch demoEnv).1, isNetAction a = false :=
  ⟨(c9_publish_config_guard demoEnv ⟨"CONFLUENCE_PAGE_ID", by decide, by decide⟩).2.1,
   (c9_publish_config_guard demoEnv ⟨"CONFLUENCE_PAGE_ID", by decide, by decide⟩).1⟩

/-- C7: the standalone document embeds, verbatim, the same stylesheet that
main writes as the presentation fragment and the same body that main writes
as the structure fragment; the Confluence storage payload wraps those same
two fragments in its two macros.  Both packagings therefore carry identical
logical content, differing only in wrapper text. -/
theorem c7_packaging_equivalence (l : List Product) :
    generate_standalone_html l
      = standalone_doc_head ++ confluence_css_output ++ standalone_doc_mid
        ++ confluence_html_output l ++ standalone_doc_tail
    ∧ generate_confluence_storage l
      = (css_macro_open ++ confluence_css_output ++ macro_close) ++ "\n\n"
        ++ (html_macro_open ++ confluence_html_output l ++ macro_close) :=
  ⟨rfl, rfl⟩

/-! Cross-tab model: the records of the rendered matrix cells.  The body
rows iterate family_lines_in_data, the columns iterate PRODUCT_TYPES, and
each cell holds get_products l fl pt (lines 587-603 of the script). -/

/-- Records of one matrix column, top to bottom. -/
def column_records (l : List Product) (pt : String) : List Product :=
  ((family_lines_in_data l).map (fun fl => get_products l fl pt)).flatten

/-- Records of all matrix cells, row-major. -/
def matrix_records (l : List Product) : List Product :=
  ((family_lines_in_data l).map
    (fun fl => (PRODUCT_TYPES.map (fun pt => get_products l fl pt)).flatten)).flatten

theorem count_get_products (l : List Product) (fl pt : String) (r : Product) :
    (get_products l fl pt).count r
      = if r.family_line = fl ∧ r.product_type = pt then l.count r else 0 := by
  unfold get_products
  by_cases hc : r.family_line = fl ∧ r.product_type = pt
  · rw [if_pos hc]
    exact List.count_filter (by simp [hc.1, hc.2])
  · rw [if_neg hc]
    apply List.count_eq_zero_of_not_mem
    intro hmem
    rw [List.mem_filter] at hmem
    have hb := hmem.2
    rw [Bool.and_eq_true, beq_iff_eq, beq_iff_eq] at hb
    exact hc hb

theorem count_filter_field (l : List Product) (f : Product → String) (c : String)
    (r : Product) :
    (l.filter (fun p => f p == c)).count r = if f r = c then l.count r else 0 := by
  by_cases hc : f r = c
  · rw [if_pos hc]
    exact List.count_filter (by simp [hc])
  · rw [if_neg hc]
    apply List.count_eq_zero_of_not_mem
    intro hmem
    rw [List.mem_filter, beq_iff_eq] at hmem
    exact hc hmem.2

theorem sum_map_ite_eq {α : Type} [DecidableEq α] {L : List α} {x : α} (v : Nat)
    (hN : L.Nodup) (hx : x ∈ L) :
    (L.map (fun y => if x = y then v else 0)).sum = v := by
  induction L with
  | nil => cases hx
  | cons a t ih =>
    by_cases hxa : x = a
    · subst hxa
      have hnotin : x ∉ t := (List.nodup_cons.mp hN).1
      simp only [List.map_cons, List.sum_cons, if_pos rfl]
      have hz : (t.map (fun y => if x = y then v else 0)).sum = 0 := by
        apply List.sum_eq_zero
        intro z hz
        obtain ⟨y, hy, rfl⟩ := List.mem_map.mp hz
        have hne : x ≠ y := fun he => hnotin (he ▸ hy)
        simp [hne]
      rw [hz]
      simp
    · have hx' : x ∈ t := by
        rcases List.mem_cons.mp hx with h | h
        · exact absurd h hxa
        · exact h
      simp only [List.map_cons, List.sum_cons, if_neg hxa]
      rw [ih (List.nodup_cons.mp hN).2 hx']
      omega

theorem family_lines_in_data_nodup (l : List Product) :
    (family_lines_in_data l).Nodup :=
  List.Nodup.filter _ (by decide : FAMILY_LINES.Nodup)

theorem mem_family_lines_in_data {l : List Product} {r : Product} (hr : r ∈ l)
    (hreg : r.family_line ∈ FAMILY_LINES) :
    r.family_line ∈ family_lines_in_data l :=
  List.mem_filter.mpr ⟨hreg, List.any_eq_true.mpr ⟨r, hr, by simp⟩⟩

theorem count_column_records (l : List Product) (pt : String) (r : Product)
    (H : ∀ p ∈ l, p.family_line ∈ FAMILY_LINES) :
    (column_records l pt).count r = if r.product_type = pt then l.count r else 0 := by
  unfold column_records
  rw [List.count_flatten, List.map_map]
  have hmap : ((family_lines_in_data l).map (List.count r ∘ fun fl => get_products l fl pt))
      = (family_lines_in_data l).map
        (fun fl => if r.family_line = fl ∧ r.product_type = pt then l.count r else 0) :=
    List.map_congr_left fun fl _ => count_get_products l fl pt r
  rw [hmap]
  by_cases hrl : r ∈ l
  · by_cases hpt : r.product_type = pt
    · rw [if_pos hpt]
      have hmap2 : ((family_lines_in_data l).map
          (fun fl => if r.family_line = fl ∧ r.product_type = pt then l.count r else 0))
          = (family_lines_in_data l).map
            (fun fl => if r.family_line = fl then l.count r else 0) :=
        List.map_congr_left fun fl _ => by
          by_cases hfl : r.family_line = fl <;> simp [hfl, hpt]
      rw [hmap2]
      exact sum_map_ite_eq (l.count r) (family_lines_in_data_nodup l)
        (mem_family_lines_in_data hrl (H r hrl))
    · rw [if_neg hpt]
      apply List.sum_eq_zero
      intro z hz
      obtain ⟨fl, _, rfl⟩ := List.mem_map.mp hz
      exact if_neg fun hc => hpt hc.2
  · have hc0 : l.count r = 0 := List.count_eq_zero_of_not_mem hrl
    have hz : ((family_lines_in_data l).map
        (fun fl => if r.family_line = fl ∧ r.product_type = pt then l.count r else 0)).sum
        = 0 := by
      apply List.sum_eq_zero
      intro z hz
      obtain ⟨fl, _, rfl⟩ := List.mem_map.mp hz
      simp [hc0]
    rw [hz]
    split <;> omega

theorem count_matrix_records (l : List Product) (r : Product)
    (H : ∀ p ∈ l, p.family_line ∈ FAMILY_LINES ∧ p.product_type ∈ PRODUCT_TYPES) :
    (matrix_records l).count r = l.count r := by
  unfold matrix_records
  rw [List.count_flatten, List.map_map]
  have hrow : ∀ fl, (List.count r ∘ fun fl =>
      (PRODUCT_TYPES.map (fun pt => get_products l fl pt)).flatten) fl
      = (PRODUCT_TYPES.map
          (fun pt => if r.family_line = fl ∧ r.product_type = pt then l.count r else 0)).sum := by
    intro fl
    simp only [Function.comp]
    rw [List.count_flatten, List.map_map]
    exact congrArg List.sum
      (List.map_congr_left fun pt _ => count_get_products l fl pt r)
  rw [List.map_congr_left fun fl _ => hrow fl]
  by_cases hrl : r ∈ l
  · have hptmem : r.product_type ∈ PRODUCT_TYPES := (H r hrl).2
    have hrowval : ∀ fl, (PRODUCT_TYPES.map
        (fun pt => if r.family_line = fl ∧ r.product_type = pt then l.count r else 0)).sum
        = if r.family_line = fl then l.count r else 0 := by
      intro fl
      by_cases hfl : r.family_line = fl
      · have : (PRODUCT_TYPES.map
            (fun pt => if r.family_line = fl ∧ r.product_type = pt then l.count r else 0))
            = PRODUCT_TYPES.map
              (fun pt => if r.product_type = pt then l.count r else 0) :=
          List.map_congr_left fun pt _ => by simp [hfl]
        rw [this, if_pos hfl]
        exact sum_map_ite_eq (l.count r) (by decide : PRODUCT_TYPES.Nodup) hptmem
      · rw [if_neg hfl]
        apply List.sum_eq_zero
        intro z hz
        obtain ⟨pt, _, rfl⟩ := List.mem_map.mp hz
        exact if_neg fun hc => hfl hc.1
    rw [List.map_congr_left fun fl _ => hrowval fl]
    exact sum_map_ite_eq (l.count r) (family_lines_in_data_nodup l)
      (mem_family_lines_in_data hrl (H r hrl).1)
  · have hc0 : l.count r = 0 := List.count_eq_zero_of_not_mem hrl
    rw [hc0]
    apply List.sum_eq_zero
    intro z hz
    obtain ⟨fl, _, rfl⟩ := List.mem_map.mp hz
    apply List.sum_eq_zero
    intro w hw
    obtain ⟨pt, _, rfl⟩ := List.mem_map.mp hw
    simp [hc0]

/-- C2 (amended): when every record carries a registry family line and a
registry product type, the rendered matrix cells partition the input exactly
(their union is a permutation of the input, so nothing is dropped or
duplicated), and each product-type column holds exactly the records of that
product type; a record whose family line or product type is outside the
registries appears in no cell (see the counterexample). -/
theorem c2_crosstab_partition (l : List Product)
    (H : ∀ r ∈ l, r.family_line ∈ FAMILY_LINES ∧ r.product_type ∈ PRODUCT_TYPES) :
    (matrix_records l).Perm l
    ∧ ∀ pt, (column_records l pt).Perm (l.filter (fun p => p.product_type == pt)) := by
  constructor
  · rw [List.perm_iff_count]
    intro r
    exact count_matrix_records l r H
  · intro pt
    rw [List.perm_iff_count]
    intro r
    rw [count_column_records l pt r (fun p hp => (H p hp).1),
        count_filter_field l (fun p => p.product_type) pt r]

/-- Witness for C2 at the concrete scenario: all its records use registry
categories, and the matrix cells are a permutation of the input. -/
theorem c2_crosstab_partition_witness :
    (matrix_records demoProducts).Perm demoProducts :=
  (c2_crosstab_partition demoProducts (by decide)).1

/-- A record whose family line is not in the registry. -/
def offRegistryFL : Product := ⟨"A", "Sales", "Tool", "Mystery Line"⟩

/-- Counterexample to C2 as stated for all inputs: a record with an
unregistered family line appears in no rendered cell, so the union of the
cells is not the input record list. -/
theorem c2_crosstab_counterexample :
    ¬ (matrix_records [offRegistryFL]).Perm [offRegistryFL] := by
  decide

/-- C4 (amended): a category value outside the registry is still counted by
the dimension's Counter (its count is positive when such a record is
present), but it does not appear in the computed present-categories list,
which only retains registry categories; this holds for both the family-line
and the function-group dimension. -/
theorem c4_unknown_category (l : List Product) (p : Product) (hp : p ∈ l) :
    (p.family_line ∉ FAMILY_LINES →
      0 < fl_counts l p.family_line ∧ p.family_line ∉ family_lines_in_data l)
    ∧ (p.function_group ∉ FUNCTION_GROUPS →
      0 < fg_counts l p.function_group ∧ p.function_group ∉ function_groups_in_data l) := by
  constructor
  · intro hreg
    constructor
    · exact List.countP_pos_iff.mpr ⟨p, hp, by simp⟩
    · intro hmem
      exact hreg (List.mem_filter.mp hmem).1
  · intro hreg
    constructor
    · exact List.countP_pos_iff.mpr ⟨p, hp, by simp⟩
    · intro hmem
      exact hreg (List.mem_filter.mp hmem).1

/-- Witness for C4 at the unregistered-family-line record. -/
theorem c4_unknown_category_witness :
    0 < fl_counts [offRegistryFL] offRegistryFL.family_line
    ∧ offRegistryFL.family_line ∉ family_lines_in_data [offRegistryFL] :=
  (c4_unknown_category [offRegistryFL] offRegistryFL (by decide)).1 (by decide)

/-- Counterexample to C4 as stated: the unregistered value is counted, yet
it is absent from the present-categories list of its dimension (the claim
asserts it appears there). -/
theorem c4_unknown_category_counterexample :
    fl_counts [offRegistryFL] "Mystery Line" = 1
    ∧ "Mystery Line" ∉ family_lines_in_data [offRegistryFL] := by
  decide

/-! Helper lemmas: escaping. -/

theorem data_foldl_append (L : List String) (acc : String) :
    (L.foldl (fun r s => r ++ s) acc).data = acc.data ++ (L.map String.data).flatten := by
  induction L generalizing acc with
  | nil => simp
  | cons s t ih =>
    simp only [List.foldl_cons, List.map_cons, List.flatten_cons]
    rw [ih, String.data_append, List.append_assoc]

theorem data_join (L : List String) :
    (String.join L).data = (L.map String.data).flatten := by
  have h := data_foldl_append L ""
  simpa [String.join] using h

/-- The escaper's output never contains a raw angle bracket or double
quote: every markup-sensitive character is replaced by its entity (the
ampersands in the output only start entities). -/
theorem esc_no_markup (s : String) :
    ((esc s).data.all (fun c => !(c == '<' || c == '>' || c == '"'))) = true := by
  unfold esc
  rw [data_join, List.all_eq_true]
  intro c hc
  rw [List.mem_flatten] at hc
  obtain ⟨cs, hcs, hcmem⟩ := hc
  rw [List.map_map] at hcs
  obtain ⟨c0, _, rfl⟩ := List.mem_map.mp hcs
  revert hcmem
  simp only [Function.comp]
  unfold escChar
  split_ifs with h1 h2 h3 h4 h5 <;> intro hcmem
  · fin_cases hcmem <;> decide
  · fin_cases hcmem <;> decide
  · fin_cases hcmem <;> decide
  · fin_cases hcmem <;> decide
  · fin_cases hcmem <;> decide
  · have hd : (String.singleton c0).data = [c0] := rfl
    rw [hd] at hcmem
    have hc0 : c = c0 := List.mem_singleton.mp hcmem
    subst hc0
    simp only [Bool.not_eq_true', Bool.or_eq_false_iff, beq_eq_false_iff_ne, ne_eq]
    exact ⟨⟨h2, h3⟩, h4⟩

/-- The slug transformation preserves a double quote: it only rewrites
spaces, space-delimited ampersands and slashes, and lowercases the rest, so
a quote in the input survives into the CSS class token verbatim. -/
theorem quote_mem_slugAux (cs : List Char) (h : '"' ∈ cs) : '"' ∈ slugAux cs := by
  induction cs using slugAux.induct with
  | case1 => cases h
  | case2 rest ih =>
    simp only [List.mem_cons] at h
    rcases h with h | h | h | h
    · exact absurd h (by decide)
    · exact absurd h (by decide)
    · exact absurd h (by decide)
    · rw [slugAux]
      exact List.mem_cons_of_mem _ (ih h)
  | case3 rest h1 ih =>
    simp only [List.mem_cons] at h
    rcases h with h | h
    · exact absurd h (by decide)
    · rw [slugAux]
      rotate_left
      · intro r hr
        exact h1 r hr
      · exact List.mem_cons_of_mem _ (ih h)
  | case4 rest ih =>
    simp only [List.mem_cons] at h
    rcases h with h | h
    · exact absurd h (by decide)
    · rw [slugAux]
      exact List.mem_cons_of_mem _ (ih h)
  | case5 c rest h1 h2 h3 ih =>
    simp only [List.mem_cons] at h
    rcases h with h | h
    · subst h
      rw [slugAux]
      rotate_left
      · exact h1
      · exact h2
      · exact h3
      · exact List.mem_cons_self _ _
    · rw [slugAux]
      rotate_left
      · exact h1
      · exact h2
      · exact h3
      · exact List.mem_cons_of_mem _ (ih h)

/-- A record whose function group contains a markup-sensitive character (a
double quote) yet consists only of characters slug leaves unchanged. -/
def badFGProduct : Product := ⟨"A", "x\"y", "Tool", "Enterprise Suite"⟩

/-- C3 (amended): every record field inserted through the escaper reaches
the output with no raw angle bracket or quote (name, product type and
family line are only inserted that way, and so is the function group's text
form); but the function group additionally flows into a CSS class through
slug, which preserves a double quote unescaped, so the claim fails for
function groups containing markup-sensitive characters. -/
theorem c3_escaping_amended :
    (∀ s : String, ((esc s).data.all (fun c => !(c == '<' || c == '>' || c == '"'))) = true)
    ∧ (∀ s : String, '"' ∈ s.data → '"' ∈ (slug s).data) :=
  ⟨esc_no_markup, fun s h => quote_mem_slugAux s.data h⟩

/-- Witness for C3 (amended) at the concrete record: the quote of the
function group survives slug, and the escaper leaves no raw quote. -/
theorem c3_escaping_witness :
    '"' ∈ (slug badFGProduct.function_group).data
    ∧ ((esc badFGProduct.function_group).data.all
        (fun c => !(c == '<' || c == '>' || c == '"'))) = true :=
  ⟨c3_escaping_amended.2 badFGProduct.function_group (by decide),
   c3_escaping_amended.1 badFGProduct.function_group⟩

set_option maxRecDepth 100000 in
/-- Counterexample to C3 as stated: the function group of badFGProduct
contains a markup-sensitive character, its escaped form differs from the
raw text, and yet the raw text occurs verbatim in the rendered body (inside
the badge's CSS class attribute), so record-derived text reaches the output
unescaped. -/
theorem c3_escaping_counterexample :
    hasMarkupChar badFGProduct.function_group = true
    ∧ esc badFGProduct.function_group ≠ badFGProduct.function_group
    ∧ hasSub badFGProduct.function_group.data
        (generate_html_body [badFGProduct]).data = true :=
  ⟨by decide, by decide, by decide⟩

set_option maxRecDepth 100000 in
/-- C10 (amended): rendering the empty record list succeeds and reports 0
products; the matrix has its header row (the family-line header plus the
four registry columns) but no body rows; the function-group and family-line
distribution sections are empty; the max-count guards substitute 1 so every
percentage is 0 and no division by zero occurs — but the product-type
distribution section is not empty: it lists all four registry product types
with count 0. -/
theorem c10_empty_render :
    family_lines_in_data [] = []
    ∧ matrix_row_parts [] = []
    ∧ (matrix_head_parts []).length = PRODUCT_TYPES.length + 3
    ∧ dist_fg_parts [] = []
    ∧ dist_fl_parts [] = []
    ∧ (dist_type_parts []).length = PRODUCT_TYPES.length
    ∧ max_fg [] = 1 ∧ max_type [] = 1 ∧ max_fl [] = 1
    ∧ (∀ pt, type_counts [] pt = 0)
    ∧ (∀ pt, pctOf (type_counts [] pt) (max_type []) = 0)
    ∧ hasSub "How our 0 products".data (generate_html_body []).data = true
    ∧ hasSub "<tbody>\n</tbody>".data (generate_html_body []).data = true :=
  ⟨rfl, rfl, rfl, rfl, rfl, rfl, rfl, rfl, rfl,
   fun _ => rfl, fun _ => pctOf_zero 1, by decide, by decide⟩

/-- Counterexample to C10 as stated: the By Product Type distribution
section of the empty render is not empty (it has one row per registry
product type). -/
theorem c10_empty_render_counterexample : dist_type_parts [] ≠ [] := by
  intro h
  have hlen := congrArg List.length h
  rw [dist_type_parts, List.length_map] at hlen
  exact absurd hlen (by decide)
